import Mathlib

/-
  Verification of the capture-session library (src/index.js).

  The JavaScript source exposes `createCaptureSession`, which merges a
  caller-supplied configuration with documented defaults and returns a
  session object holding the merged config and an `_isActive` boolean.
  `start()` throws when the session is already active and otherwise sets
  `_isActive := true`; `stop()` throws when the session is not active and
  otherwise sets `_isActive := false`; `isActive()` returns `_isActive`.
  The permission functions delegate to the bundled mock native backend,
  whose `checkPermissions` and `requestPermissions` return fixed records.

  Session operations are embedded as functions
  `Session -> Except String Unit × Session`: the first component is the
  call's outcome (`.error` models a thrown exception, thrown before any
  mutation, as in the source), the second the observable object state
  after the call.
-/

namespace Cap

/-- Audio section of the merged capture configuration (src/index.js,
`defaultConfig.audio`). `microphoneDeviceId` is nullable, hence `Option`. -/
structure AudioConfig where
  enabled : Bool
  systemAudio : Bool
  microphone : Bool
  sampleRate : Nat
  channels : Nat
  segmentDurationMs : Nat
  microphoneDeviceId : Option String
  format : String
deriving DecidableEq, Repr

/-- Screen section of the merged capture configuration (src/index.js,
`defaultConfig.screen`). -/
structure ScreenConfig where
  enabled : Bool
  displayId : Option Nat
  fps : Nat
  quality : Nat
  includeCursor : Bool
  windowId : Option Nat
deriving DecidableEq, Repr

/-- Output section of the merged capture configuration (src/index.js,
`defaultConfig.output`). -/
structure OutputConfig where
  audio : String
  video : String
  outputDir : Option String
  realTime : Bool
deriving DecidableEq, Repr

/-- The full merged capture configuration. -/
structure CaptureConfig where
  audio : AudioConfig
  screen : ScreenConfig
  output : OutputConfig
deriving DecidableEq, Repr

/-- The `defaultConfig` literal of `createCaptureSession` (src/index.js
lines 157-182). -/
def defaultConfig : CaptureConfig :=
  { audio :=
      { enabled := true
        systemAudio := true
        microphone := true
        sampleRate := 44100
        channels := 2
        segmentDurationMs := 2000
        microphoneDeviceId := none
        format := "Aac" }
    screen :=
      { enabled := false
        displayId := none
        fps := 30
        quality := 80
        includeCursor := true
        windowId := none }
    output :=
      { audio := "Aac"
        video := "Mp4"
        outputDir := none
        realTime := true } }

/-- Caller-supplied audio section: each field is optional (`none` models a
field the caller leaves unset). -/
structure AudioConfigOpt where
  enabled : Option Bool := none
  systemAudio : Option Bool := none
  microphone : Option Bool := none
  sampleRate : Option Nat := none
  channels : Option Nat := none
  segmentDurationMs : Option Nat := none
  microphoneDeviceId : Option (Option String) := none
  format : Option String := none
deriving DecidableEq, Repr

/-- Caller-supplied screen section. -/
structure ScreenConfigOpt where
  enabled : Option Bool := none
  displayId : Option (Option Nat) := none
  fps : Option Nat := none
  quality : Option Nat := none
  includeCursor : Option Bool := none
  windowId : Option (Option Nat) := none
deriving DecidableEq, Repr

/-- Caller-supplied output section. -/
structure OutputConfigOpt where
  audio : Option String := none
  video : Option String := none
  outputDir : Option (Option String) := none
  realTime : Option Bool := none
deriving DecidableEq, Repr

/-- Caller-supplied configuration object: each nested section may be
absent entirely. -/
structure CaptureConfigOpt where
  audio : Option AudioConfigOpt := none
  screen : Option ScreenConfigOpt := none
  output : Option OutputConfigOpt := none
deriving DecidableEq, Repr

/-- Field-by-field merge for the audio section, the JS spread
`{ ...defaultConfig.audio, ...config.audio }`. -/
def mergeAudio (d : AudioConfig) (o : AudioConfigOpt) : AudioConfig :=
  { enabled := o.enabled.getD d.enabled
    systemAudio := o.systemAudio.getD d.systemAudio
    microphone := o.microphone.getD d.microphone
    sampleRate := o.sampleRate.getD d.sampleRate
    channels := o.channels.getD d.channels
    segmentDurationMs := o.segmentDurationMs.getD d.segmentDurationMs
    microphoneDeviceId := o.microphoneDeviceId.getD d.microphoneDeviceId
    format := o.format.getD d.format }

/-- Field-by-field merge for the screen section, the JS spread
`{ ...defaultConfig.screen, ...config.screen }`. -/
def mergeScreen (d : ScreenConfig) (o : ScreenConfigOpt) : ScreenConfig :=
  { enabled := o.enabled.getD d.enabled
    displayId := o.displayId.getD d.displayId
    fps := o.fps.getD d.fps
    quality := o.quality.getD d.quality
    includeCursor := o.includeCursor.getD d.includeCursor
    windowId := o.windowId.getD d.windowId }

/-- Field-by-field merge for the output section, the JS spread
`{ ...defaultConfig.output, ...config.output }`. -/
def mergeOutput (d : OutputConfig) (o : OutputConfigOpt) : OutputConfig :=
  { audio := o.audio.getD d.audio
    video := o.video.getD d.video
    outputDir := o.outputDir.getD d.outputDir
    realTime := o.realTime.getD d.realTime }

/-- The `mergedConfig` computed by `createCaptureSession`
(src/index.js lines 185-191): defaults overridden section by section,
one level deep. A section the caller omits behaves as the empty spread. -/
def mergedConfig (config : CaptureConfigOpt) : CaptureConfig :=
  { audio := mergeAudio defaultConfig.audio (config.audio.getD {})
    screen := mergeScreen defaultConfig.screen (config.screen.getD {})
    output := mergeOutput defaultConfig.output (config.output.getD {}) }

/-- The session object returned by `createCaptureSession`
(src/index.js lines 194-219): the merged config plus the `_isActive`
boolean flag. -/
structure Session where
  config : CaptureConfig
  _isActive : Bool
deriving DecidableEq, Repr

/-- `createCaptureSession(config = {})` (src/index.js line 155):
merges the configuration and returns an inactive session. -/
def createCaptureSession (config : CaptureConfigOpt := {}) : Session :=
  { config := mergedConfig config, _isActive := false }

/-- `session.isActive()` (src/index.js lines 216-218): returns the
`_isActive` flag, touching nothing. -/
def Session.isActive (s : Session) : Bool := s._isActive

/-- `session.start()` (src/index.js lines 198-205): throws
"Session is already active" when `_isActive` is set (before any
mutation), otherwise sets `_isActive := true` and resolves. -/
def Session.start (s : Session) : Except String Unit × Session :=
  if s._isActive then (.error "Session is already active", s)
  else (.ok (), { s with _isActive := true })

/-- `session.stop()` (src/index.js lines 207-214): throws
"Session is not active" when `_isActive` is clear (before any
mutation), otherwise sets `_isActive := false` and resolves. -/
def Session.stop (s : Session) : Except String Unit × Session :=
  if s._isActive then (.ok (), { s with _isActive := false })
  else (.error "Session is not active", s)

/-- Per-capability permission record, as the JSON objects the native
backend returns (src/index.js lines 77-87). -/
structure PermissionsStatus where
  microphone : String
  screenRecording : String
  systemAudio : String
deriving DecidableEq, Repr

/-- `native.checkPermissions` of the bundled mock backend
(src/index.js lines 77-81): a fixed record, independent of any
earlier call. -/
def nativeCheckPermissions : PermissionsStatus :=
  { microphone := "NotRequested"
    screenRecording := "NotRequested"
    systemAudio := "NotRequested" }

/-- `native.requestPermissions` of the bundled mock backend
(src/index.js lines 83-87): a fixed record. -/
def nativeRequestPermissions : PermissionsStatus :=
  { microphone := "Granted"
    screenRecording := "Granted"
    systemAudio := "Denied" }

/-- `checkPermissions()` wrapper (src/index.js lines 128-131):
JSON round-trip of the native result. -/
def checkPermissions : PermissionsStatus := nativeCheckPermissions

/-- `requestPermissions()` wrapper (src/index.js lines 137-140):
JSON round-trip of the native result. -/
def requestPermissions : PermissionsStatus := nativeRequestPermissions

/-- Modelled from the spec: the segmenter/encoder state of the native
pipeline (`AudioEncoderInner` in PRODUCTION_FIXES_SUMMARY.md, whose Rust
source is not in the repository): the number of samples buffered toward
the current segment and the `sequence_counter` for the next segment. -/
structure SegState where
  buffer : Nat
  seq : Nat
deriving DecidableEq, Repr

/-- Modelled from the spec: feeding one PCM chunk of `n` samples into the
segmenter. Whenever the accumulated sample count reaches
`samplesPerSegment`, a segment of exactly that many samples is cut and
assigned the next sequence number; the trailing remainder carries into
the next buffer. Returns the sequence numbers of the segments emitted by
this chunk and the new state. -/
def feedChunk (samplesPerSegment : Nat) (st : SegState) (n : Nat) :
    List Nat × SegState :=
  ( List.range' st.seq ((st.buffer + n) / samplesPerSegment),
    { buffer := (st.buffer + n) % samplesPerSegment,
      seq := st.seq + (st.buffer + n) / samplesPerSegment } )

/-- Modelled from the spec: feeding a whole arrival-ordered list of PCM
chunks, concatenating the emitted sequence numbers in order. -/
def feedAll (samplesPerSegment : Nat) (st : SegState) :
    List Nat → List Nat × SegState
  | [] => ([], st)
  | n :: ns =>
    ((feedChunk samplesPerSegment st n).1 ++
       (feedAll samplesPerSegment (feedChunk samplesPerSegment st n).2 ns).1,
     (feedAll samplesPerSegment (feedChunk samplesPerSegment st n).2 ns).2)

/-- Modelled from the spec: `flush()` at session stop emits any remaining
buffered samples as a final short segment with the next sequence number,
rather than discarding them. -/
def flushSeg (st : SegState) : List Nat :=
  if st.buffer = 0 then [] else [st.seq]

/-- Modelled from the spec: the sequence numbers of all segments a
completed session emits, in emission order: a fresh session starts with
`sequence_counter = 0`, consumes its chunks, and flushes on stop. -/
def sessionSeqs (samplesPerSegment : Nat) (chunks : List Nat) : List Nat :=
  (feedAll samplesPerSegment { buffer := 0, seq := 0 } chunks).1 ++
    flushSeg (feedAll samplesPerSegment { buffer := 0, seq := 0 } chunks).2

/-- Invariant of the segmenter: feeding any chunk list from any state
emits exactly the consecutive sequence numbers from the starting counter,
and advances the counter by the number of emitted segments. -/
lemma feedAll_ex (k : Nat) (chunks : List Nat) (st : SegState) :
    ∃ m, (feedAll k st chunks).1 = List.range' st.seq m ∧
      (feedAll k st chunks).2.seq = st.seq + m := by
  induction chunks generalizing st with
  | nil => exact ⟨0, rfl, rfl⟩
  | cons n ns ih =>
    obtain ⟨m, h1, h2⟩ := ih (feedChunk k st n).2
    refine ⟨(st.buffer + n) / k + m, ?_, ?_⟩
    · show (feedChunk k st n).1 ++ (feedAll k (feedChunk k st n).2 ns).1 = _
      rw [h1]
      show List.range' st.seq ((st.buffer + n) / k) ++
          List.range' (st.seq + (st.buffer + n) / k) m = _
      rw [List.range'_append_1, Nat.add_comm m ((st.buffer + n) / k)]
    · show (feedAll k (feedChunk k st n).2 ns).2.seq = _
      rw [h2]
      show st.seq + (st.buffer + n) / k + m = _
      rw [Nat.add_assoc]

/-- Claim C5: the sequence numbers of the segments a completed session
emits (its streamed segments followed by the stop-time flush) are exactly
0, 1, 2, ...: they start at 0 and are strictly increasing with no
duplicates and no gaps; a fresh session starts the counter back at 0. -/
theorem c5_theorem (k : Nat) (chunks : List Nat) :
    sessionSeqs k chunks = List.range (sessionSeqs k chunks).length := by
  obtain ⟨m, h1, h2⟩ := feedAll_ex k chunks { buffer := 0, seq := 0 }
  have h2' : (feedAll k { buffer := 0, seq := 0 } chunks).2.seq = m := by
    simpa using h2
  by_cases hb : (feedAll k { buffer := 0, seq := 0 } chunks).2.buffer = 0
  · simp [sessionSeqs, flushSeg, hb, h1, List.range_eq_range']
  · simp [sessionSeqs, flushSeg, hb, h1, h2', List.range_succ,
      List.range_eq_range']

/-- Claim C1 (counterexample): with the permission environment reporting
the microphone permission as Denied, `start()` on a fresh session does
not fail: it resolves successfully and the session becomes active (the
Started observable), contradicting the claim that it must fail with
PermissionDenied and end in Failed, never Started. The session code
consults no permission state at all. -/
theorem c1_counterexample :
    ({ microphone := "Denied", screenRecording := "NotRequested",
       systemAudio := "NotRequested" } : PermissionsStatus).microphone = "Denied" ∧
    (Session.start (createCaptureSession {})).1 = Except.ok () ∧
    (Session.start (createCaptureSession {})).2._isActive = true :=
  ⟨rfl, rfl, rfl⟩

/-- Claim C1 (amended): `start()` consults no permission state: on any
freshly created session it succeeds and marks the session active even
when the environment reports the microphone permission as Denied, and the
only error `start()` can ever produce is "Session is already active" —
no PermissionDenied error and no Failed status exist in the session
implementation. -/
theorem c1_theorem (o : CaptureConfigOpt) (s : Session) :
    (Session.start (createCaptureSession o)).1 = Except.ok () ∧
    (Session.start (createCaptureSession o)).2._isActive = true ∧
    ((Session.start s).1 = Except.ok () ∨
      (Session.start s).1 = Except.error "Session is already active") := by
  refine ⟨rfl, rfl, ?_⟩
  by_cases h : s._isActive
  · right; simp [Session.start, h]
  · left; simp [Session.start, h]

/-- Claim C2: after a first successful `start()`, a second `start()` has
no side effects: the observable session state (the whole object, and in
particular `isActive()` and the config) is identical to the state after
the first call; no device stream exists in the session implementation to
be created twice. -/
theorem c2_theorem (s : Session) (h : (Session.start s).1 = Except.ok ()) :
    (Session.start (Session.start s).2).2 = (Session.start s).2 ∧
    Session.isActive (Session.start (Session.start s).2).2 =
      Session.isActive (Session.start s).2 ∧
    (Session.start (Session.start s).2).2.config = s.config := by
  have hs : s._isActive = false := by
    by_cases hb : s._isActive
    · exfalso; simp [Session.start, hb] at h
    · simpa using hb
  simp [Session.start, Session.isActive, hs]

/-- Claim C2 (witness): the concrete fresh session starts successfully
and a second `start()` leaves its state unchanged. -/
theorem c2_witness :
    (Session.start (createCaptureSession {})).1 = Except.ok () ∧
    (Session.start (Session.start (createCaptureSession {})).2).2 =
      (Session.start (createCaptureSession {})).2 :=
  ⟨rfl, (c2_theorem (createCaptureSession {}) rfl).1⟩

/-- Claim C3 (counterexample): `stop()` on a freshly created session
(status never Started) does not succeed: it throws
"Session is not active", contradicting the claim that `stop()` from a
never-started or stopped session succeeds without raising. -/
theorem c3_counterexample :
    (Session.stop (createCaptureSession {})).1 =
      Except.error "Session is not active" :=
  rfl

/-- Claim C3 (amended): `stop()` on an inactive session (freshly created
or already stopped) raises "Session is not active" and changes nothing:
the session state after the call is exactly the state before it. -/
theorem c3_theorem (s : Session) (h : s._isActive = false) :
    Session.stop s = (Except.error "Session is not active", s) := by
  simp [Session.stop, h]

/-- Claim C3 (witness): the amended behavior at the concrete fresh
session. -/
theorem c3_witness :
    (createCaptureSession {})._isActive = false ∧
    Session.stop (createCaptureSession {}) =
      (Except.error "Session is not active", createCaptureSession {}) :=
  ⟨rfl, c3_theorem (createCaptureSession {}) rfl⟩

/-- Claim C4 (counterexample): after a successful `start()` followed by
`stop()`, a further `start()` on the same session is not rejected: it
succeeds and the session becomes active again, contradicting the claim
that `start()` is rejected whenever the session is not freshly created. -/
theorem c4_counterexample :
    (Session.start
        (Session.stop (Session.start (createCaptureSession {})).2).2).1 =
      Except.ok () ∧
    (Session.start
        (Session.stop (Session.start (createCaptureSession {})).2).2).2._isActive =
      true :=
  ⟨rfl, rfl⟩

/-- Claim C4 (amended): `start()` is rejected with no state change
exactly when the session is currently active; a stopped session is
indistinguishable from a fresh one (the mock keeps only the `_isActive`
flag, with no separate Created/Stopped/Failed states), so after
`start()` then `stop()` a further `start()` succeeds and re-activates
the session. -/
theorem c4_theorem (s : Session) :
    (s._isActive = true →
      Session.start s = (Except.error "Session is already active", s)) ∧
    (s._isActive = false →
      (Session.start s).1 = Except.ok () ∧
      (Session.stop (Session.start s).2).2._isActive = false ∧
      (Session.start (Session.stop (Session.start s).2).2).1 = Except.ok ()) := by
  constructor
  · intro h; simp [Session.start, h]
  · intro h; simp [Session.start, Session.stop, h]

/-- Claim C4 (witness): both branches of the amended claim at concrete
sessions: an active session's `start()` is rejected with no state change,
and a fresh session's `start()` succeeds. -/
theorem c4_witness :
    Session.start (Session.start (createCaptureSession {})).2 =
      (Except.error "Session is already active",
        (Session.start (createCaptureSession {})).2) ∧
    (Session.start (createCaptureSession {})).1 = Except.ok () :=
  ⟨(c4_theorem (Session.start (createCaptureSession {})).2).1 rfl,
   ((c4_theorem (createCaptureSession {})).2 rfl).1⟩

/-- Claim C6: every audio field the caller leaves unset takes its
documented default in the session's merged config — segmentDurationMs
2000, enabled true, systemAudio true, microphone true, sampleRate 44100,
channels 2, format "Aac", microphoneDeviceId null — while a field the
caller sets keeps the caller's value (each merged field is the caller's
value when present, the default otherwise). -/
theorem c6_theorem (o : CaptureConfigOpt) :
    (createCaptureSession o).config.audio.segmentDurationMs =
      ((o.audio.getD {}).segmentDurationMs).getD 2000 ∧
    (createCaptureSession o).config.audio.enabled =
      ((o.audio.getD {}).enabled).getD true ∧
    (createCaptureSession o).config.audio.systemAudio =
      ((o.audio.getD {}).systemAudio).getD true ∧
    (createCaptureSession o).config.audio.microphone =
      ((o.audio.getD {}).microphone).getD true ∧
    (createCaptureSession o).config.audio.sampleRate =
      ((o.audio.getD {}).sampleRate).getD 44100 ∧
    (createCaptureSession o).config.audio.channels =
      ((o.audio.getD {}).channels).getD 2 ∧
    (createCaptureSession o).config.audio.format =
      ((o.audio.getD {}).format).getD "Aac" ∧
    (createCaptureSession o).config.audio.microphoneDeviceId =
      ((o.audio.getD {}).microphoneDeviceId).getD none :=
  ⟨rfl, rfl, rfl, rfl, rfl, rfl, rfl, rfl⟩

/-- Claim C7: `isActive()` reflects exactly the session's active status:
it is false immediately after `createCaptureSession`, true after a
successful `start()`, false after a successful `stop()`, and in general
returns the `_isActive` flag. -/
theorem c7_theorem (o : CaptureConfigOpt) (s : Session) :
    Session.isActive (createCaptureSession o) = false ∧
    Session.isActive s = s._isActive ∧
    ((Session.start s).1 = Except.ok () →
      Session.isActive (Session.start s).2 = true) ∧
    ((Session.stop s).1 = Except.ok () →
      Session.isActive (Session.stop s).2 = false) := by
  refine ⟨rfl, rfl, ?_, ?_⟩ <;> by_cases h : s._isActive <;>
    simp [Session.start, Session.stop, Session.isActive, h]

/-- Claim C7 (witness): the create / successful start / successful stop
observations at a concrete session. -/
theorem c7_witness :
    Session.isActive (createCaptureSession {}) = false ∧
    Session.isActive (Session.start (createCaptureSession {})).2 = true ∧
    Session.isActive
        (Session.stop (Session.start (createCaptureSession {})).2).2 = false :=
  ⟨(c7_theorem {} (createCaptureSession {})).1,
   (c7_theorem {} (createCaptureSession {})).2.2.1 rfl,
   (c7_theorem {} (Session.start (createCaptureSession {})).2).2.2.2 rfl⟩

/-- Claim C8: the config fixed at creation is never mutated: it equals
the merged configuration computed at creation time, and `start()` and
`stop()` leave it untouched whether they succeed or throw (`isActive()`
reads the flag and touches no state at all). -/
theorem c8_theorem (o : CaptureConfigOpt) (s : Session) :
    (createCaptureSession o).config = mergedConfig o ∧
    (Session.start s).2.config = s.config ∧
    (Session.stop s).2.config = s.config := by
  refine ⟨rfl, ?_, ?_⟩ <;> by_cases h : s._isActive <;>
    simp [Session.start, Session.stop, h]

/-- Claim C9 (counterexample): `requestPermissions()` resolves reporting
the microphone as Granted, yet a subsequent `checkPermissions()` reports
NotRequested for the microphone — an earlier state, not the last known
one — because the mock native backend is stateless. -/
theorem c9_counterexample :
    requestPermissions.microphone = "Granted" ∧
    checkPermissions.microphone = "NotRequested" :=
  ⟨rfl, rfl⟩

/-- Claim C9 (amended): `checkPermissions()` returns without prompting,
but it does not track state: the mock native backend always reports
NotRequested for every capability regardless of any earlier
`requestPermissions()` call, whose own result is the fixed record
Granted/Granted/Denied. -/
theorem c9_theorem :
    checkPermissions =
      { microphone := "NotRequested", screenRecording := "NotRequested",
        systemAudio := "NotRequested" } ∧
    requestPermissions =
      { microphone := "Granted", screenRecording := "Granted",
        systemAudio := "Denied" } :=
  ⟨rfl, rfl⟩

/-- Claim C10: `createCaptureSession` is total and fully populates the
config: with no argument it returns exactly the defaults; the merge is
one level deep, so a nested section carrying a single field is merged
field-by-field with the defaults (not substituted wholesale); and for
every input the three sections are exactly the field-by-field merges of
the defaults with the caller's sections. -/
theorem c10_theorem :
    (createCaptureSession {}).config =
      { audio := defaultConfig.audio, screen := defaultConfig.screen,
        output := defaultConfig.output } ∧
    (∀ n : Nat,
      (createCaptureSession { audio := some { sampleRate := some n } }).config.audio =
        { defaultConfig.audio with sampleRate := n }) ∧
    (∀ f : Nat,
      (createCaptureSession { screen := some { fps := some f } }).config.screen =
        { defaultConfig.screen with fps := f }) ∧
    (∀ d : String,
      (createCaptureSession
          { output := some { outputDir := some (some d) } }).config.output =
        { defaultConfig.output with outputDir := some d }) ∧
    (∀ o : CaptureConfigOpt,
      (createCaptureSession o).config.audio =
        mergeAudio defaultConfig.audio (o.audio.getD {}) ∧
      (createCaptureSession o).config.screen =
        mergeScreen defaultConfig.screen (o.screen.getD {}) ∧
      (createCaptureSession o).config.output =
        mergeOutput defaultConfig.output (o.output.getD {})) :=
  ⟨rfl, fun _ => rfl, fun _ => rfl, fun _ => rfl, fun _ => ⟨rfl, rfl, rfl⟩⟩

end Cap
